import Mathlib

/-!
Shallow embedding of `src/artwork_inventory.py`, a SQLite-backed CLI
inventory manager for artwork products.

The SQLite table `artwork` (see `TABLE_SQL` in the source) is modelled as a
list of rows together with the AUTOINCREMENT counter (SQLite's
`sqlite_sequence` value plus one): a fresh table assigns id 1, and each
successful INSERT uses the counter and bumps it.  A failed INSERT (UNIQUE
violation) leaves both the rows and the counter unchanged, matching SQLite
AUTOINCREMENT semantics where `sqlite_sequence` is only updated by a
successful insert.

Column types: `id INTEGER PRIMARY KEY AUTOINCREMENT` becomes `Nat`;
nullable TEXT/INTEGER columns become `Option String` / `Option Int`;
`price REAL` is carried opaquely as `Option Rat` — the program never
performs arithmetic on price, it only stores and echoes it, so the exact
numeric carrier is irrelevant to every operation modelled here;
`quantity INTEGER NOT NULL` becomes `Int` (it may go negative under delta
updates and is never clamped).

Python `None` arguments become `Option.none`.  Python truthiness tests on
strings (`if sku:` in `list_products`) are modelled exactly: `None` and the
empty string are falsy, every other string is truthy.
-/

namespace ArtworkInventory

/-- One row of the `artwork` table. -/
structure Row where
  id : Nat
  sku : Option String
  title : String
  artist : Option String
  year : Option Int
  price : Option Rat
  quantity : Int
deriving DecidableEq, Repr

/-- The persistent store: the `artwork` table rows (in rowid insertion
order, as SQLite keeps them) plus the next AUTOINCREMENT id. -/
structure Store where
  rows : List Row
  nextId : Nat
deriving DecidableEq, Repr

/-- A freshly created database: empty table, first id to be assigned is 1. -/
def freshStore : Store := ⟨[], 1⟩

/-- Outcome printed by `add_product`: the success message
`Added product id=... title=...` or the caught `sqlite3.IntegrityError`
message.  The exception is caught, so the process exits normally either
way: there is no abnormal-exit constructor. -/
inductive AddResult where
  | added (id : Nat) (title : String)
  | integrityError
deriving DecidableEq, Repr

/-- Messages printed by `remove_product` and `update_quantity`. -/
inductive Msg where
  | provideIdOrSku
  | provideSetOrDelta
  | removed (count : Nat)
  | updated (count : Nat)
  | notFound
deriving DecidableEq, Repr

/-- Outcome of `get_product`. -/
inductive GetResult where
  | found (r : Row)
  | notFound
  | provideIdOrSku
deriving DecidableEq, Repr

/-- SQL predicate `WHERE id = ?` (the parameter is a non-null integer). -/
def rowMatchesId (i : Nat) (r : Row) : Bool := r.id = i

/-- SQL predicate `WHERE sku = ?` with a non-null string parameter.
A row whose `sku` is NULL never satisfies it: in SQL, `NULL = 'x'` is not
true. -/
def rowMatchesSku (k : String) (r : Row) : Bool := r.sku = some k

/-- Does inserting a row with this `sku` violate the `sku TEXT UNIQUE`
constraint?  NULL is exempt from UNIQUE in SQLite, so a missing sku never
conflicts, no matter how many existing rows also have no sku. -/
def skuConflict (rows : List Row) (sku : Option String) : Bool :=
  match sku with
  | none => false
  | some k => rows.any (fun r => r.sku = some k)

/-- `add_product`: INSERT one row; on `sqlite3.IntegrityError` (duplicate
non-NULL sku) print an error and leave the table untouched.  On success the
new row gets the AUTOINCREMENT id (`cur.lastrowid`). -/
def add_product (st : Store) (title : String) (artist : Option String)
    (year : Option Int) (price : Option Rat) (quantity : Int)
    (sku : Option String) : Store × AddResult :=
  if skuConflict st.rows sku then
    (st, .integrityError)
  else
    (⟨st.rows ++ [⟨st.nextId, sku, title, artist, year, price, quantity⟩],
      st.nextId + 1⟩,
     .added st.nextId title)

/-- `remove_product`: guard `if id_ is None and sku is None`, then
`DELETE FROM artwork WHERE id = ?` if an id was given, else
`DELETE ... WHERE sku = ?`.  `cur.rowcount` is the number of deleted rows. -/
def remove_product (st : Store) (id? : Option Nat) (sku? : Option String) :
    Store × Msg :=
  match id?, sku? with
  | none, none => (st, .provideIdOrSku)
  | some i, _ =>
      let count := st.rows.countP (rowMatchesId i)
      (⟨st.rows.filter (fun r => !(rowMatchesId i r)), st.nextId⟩,
       if count ≠ 0 then .removed count else .notFound)
  | none, some k =>
      let count := st.rows.countP (rowMatchesSku k)
      (⟨st.rows.filter (fun r => !(rowMatchesSku k r)), st.nextId⟩,
       if count ≠ 0 then .removed count else .notFound)

/-- The WHERE predicate of `update_quantity`: by id when an id was given
(the sku is then ignored), else by sku.  The both-`None` case is cut off by
the guard before any UPDATE runs. -/
def uqMatch (id? : Option Nat) (sku? : Option String) (r : Row) : Bool :=
  match id?, sku? with
  | some i, _ => rowMatchesId i r
  | none, some k => rowMatchesSku k r
  | none, none => false

/-- One `UPDATE artwork SET quantity = ... WHERE ...` statement: every
matching row has `f` applied to its quantity, every other row and every
other column is untouched; `cur.rowcount` counts the matched rows. -/
def applyUpdate (st : Store) (pred : Row → Bool) (f : Int → Int) :
    Store × Msg :=
  let count := st.rows.countP pred
  (⟨st.rows.map (fun r => if pred r then { r with quantity := f r.quantity } else r),
    st.nextId⟩,
   if count ≠ 0 then .updated count else .notFound)

/-- `update_quantity`: identifier guard, then set/delta guard, then one
UPDATE.  `--set` assigns the literal value; `--delta` adds the signed value
to the stored quantity in the same statement (`quantity = quantity + ?`),
with no clamping at zero. -/
def update_quantity (st : Store) (id? : Option Nat) (sku? : Option String)
    (set_qty delta : Option Int) : Store × Msg :=
  match id?, sku? with
  | none, none => (st, .provideIdOrSku)
  | _, _ =>
      match set_qty, delta with
      | none, none => (st, .provideSetOrDelta)
      | some q, _ => applyUpdate st (uqMatch id? sku?) (fun _ => q)
      | none, some d => applyUpdate st (uqMatch id? sku?) (fun x => x + d)

/-- Insert a row into a list kept in ascending-id order. -/
def insertById (r : Row) : List Row → List Row
  | [] => [r]
  | x :: xs => if r.id ≤ x.id then r :: x :: xs else x :: insertById r xs

/-- `ORDER BY id`: sort the rows by ascending id (insertion sort). -/
def sortById : List Row → List Row
  | [] => []
  | x :: xs => insertById x (sortById xs)

/-- `list_products`: Python tests `if sku:` — truthiness, so both `None`
and the empty string fall through to the unfiltered
`SELECT * FROM artwork ORDER BY id`; a truthy sku runs
`SELECT * FROM artwork WHERE sku = ? ORDER BY id`. -/
def list_products (st : Store) (sku? : Option String) : List Row :=
  match sku? with
  | some k =>
      if k = "" then sortById st.rows
      else sortById (st.rows.filter (rowMatchesSku k))
  | none => sortById st.rows

/-- `get_product`: `if id_ is not None` select by id, `elif sku is not
None` select by sku, else print the guidance message.  `fetchone` returns
the first matching row.  A SELECT never mutates the table, which the
embedding records by returning the store unchanged alongside the result. -/
def get_product (st : Store) (id? : Option Nat) (sku? : Option String) :
    Store × GetResult :=
  match id?, sku? with
  | some i, _ =>
      (st, match st.rows.find? (rowMatchesId i) with
           | some r => .found r
           | none => .notFound)
  | none, some k =>
      (st, match st.rows.find? (rowMatchesSku k) with
           | some r => .found r
           | none => .notFound)
  | none, none => (st, .provideIdOrSku)

/-- The CLI subcommands that reach the store (after `main` has parsed the
arguments).  `init` and `help` touch the store only through the idempotent
`CREATE TABLE IF NOT EXISTS`, which never alters existing data. -/
inductive Cmd where
  | add (title : String) (artist : Option String) (year : Option Int)
        (price : Option Rat) (quantity : Int) (sku : Option String)
  | remove (id? : Option Nat) (sku? : Option String)
  | updateQty (id? : Option Nat) (sku? : Option String)
              (set_qty delta : Option Int)
  | listCmd (sku? : Option String)
  | get (id? : Option Nat) (sku? : Option String)
  | initCmd
  | helpCmd
deriving DecidableEq, Repr

/-- Effect of one CLI invocation on the store. -/
def step (st : Store) : Cmd → Store
  | .add t a y p q k => (add_product st t a y p q k).1
  | .remove i k => (remove_product st i k).1
  | .updateQty i k sq d => (update_quantity st i k sq d).1
  | .listCmd _ => st
  | .get i k => (get_product st i k).1
  | .initCmd => st
  | .helpCmd => st

/-- Effect of a sequence of CLI invocations. -/
def run (st : Store) (cs : List Cmd) : Store := cs.foldl step st

/-- Ascending-id comparison used by `ORDER BY id`. -/
def idLE (a b : Row) : Prop := a.id ≤ b.id

theorem insertById_perm (r : Row) (l : List Row) :
    List.Perm (insertById r l) (r :: l) := by
  induction l with
  | nil => simp [insertById]
  | cons x xs ih =>
      by_cases h : r.id ≤ x.id
      · simp [insertById, h]
      · simp only [insertById, if_neg h]
        exact (List.Perm.cons x ih).trans (List.Perm.swap r x xs)

theorem sortById_perm (l : List Row) : List.Perm (sortById l) l := by
  induction l with
  | nil => simp [sortById]
  | cons x xs ih =>
      exact (insertById_perm x (sortById xs)).trans (List.Perm.cons x ih)

theorem mem_sortById {r : Row} {l : List Row} : r ∈ sortById l ↔ r ∈ l :=
  (sortById_perm l).mem_iff

theorem sorted_insertById (r : Row) (l : List Row)
    (h : List.Sorted idLE l) : List.Sorted idLE (insertById r l) := by
  induction l with
  | nil => simp [insertById, List.Sorted]
  | cons x xs ih =>
      rw [List.sorted_cons] at h
      by_cases hle : r.id ≤ x.id
      · rw [insertById, if_pos hle, List.sorted_cons]
        refine ⟨?_, (List.sorted_cons).2 h⟩
        intro b hb
        rcases List.mem_cons.1 hb with hb | hb
        · exact hb ▸ hle
        · exact le_trans hle (h.1 b hb)
      · rw [insertById, if_neg hle, List.sorted_cons]
        refine ⟨?_, ih h.2⟩
        intro b hb
        rcases List.mem_cons.1 ((insertById_perm r xs).mem_iff.1 hb) with hb | hb
        · exact hb ▸ le_of_not_le hle
        · exact h.1 b hb

theorem sorted_sortById (l : List Row) : List.Sorted idLE (sortById l) := by
  induction l with
  | nil => simp [sortById, List.Sorted]
  | cons x xs ih => exact sorted_insertById x (sortById xs) ih

/-! ## Helper lemmas about the operations -/

/-- Deleting by sku keeps exactly the rows whose sku differs from the
parameter. -/
theorem remove_by_sku_mem (st : Store) (k : String) (r : Row) :
    r ∈ (remove_product st none (some k)).1.rows ↔
      r ∈ st.rows ∧ ¬ r.sku = some k := by
  simp [remove_product, rowMatchesSku, List.mem_filter]

/-- A row returned by `get --sku` carries exactly the looked-up sku. -/
theorem get_by_sku_found (st : Store) (k : String) (r : Row)
    (h : (get_product st none (some k)).2 = .found r) : r.sku = some k := by
  unfold get_product at h
  cases hf : st.rows.find? (rowMatchesSku k) with
  | none => simp [hf] at h
  | some a =>
      simp [hf] at h
      have := List.find?_some hf
      rw [← h]
      simpa [rowMatchesSku] using this

/-- The store after `update_quantity` is either untouched (a guard fired)
or is the row-wise image of one UPDATE statement: matched rows get a new
quantity, everything else is untouched. -/
theorem update_quantity_cases (st : Store) (id? : Option Nat)
    (sku? : Option String) (sq d : Option Int) :
    (update_quantity st id? sku? sq d).1 = st ∨
    ∃ f : Int → Int, (update_quantity st id? sku? sq d).1 =
      ⟨st.rows.map (fun r =>
          if uqMatch id? sku? r then { r with quantity := f r.quantity } else r),
        st.nextId⟩ := by
  rcases id? with _ | i <;> rcases sku? with _ | k <;>
    rcases sq with _ | q <;> rcases d with _ | d' <;>
    first
      | exact Or.inl rfl
      | exact Or.inr ⟨fun _ => q, rfl⟩
      | exact Or.inr ⟨fun x => x + d', rfl⟩

/-- A row that the WHERE clause does not match is returned unchanged, at
its original position, by any `update_quantity` call. -/
theorem update_unmatched_row (st : Store) (id? : Option Nat)
    (sku? : Option String) (sq d : Option Int) (j : Nat) (r : Row)
    (hr : st.rows[j]? = some r) (hm : uqMatch id? sku? r = false) :
    (update_quantity st id? sku? sq d).1.rows[j]? = some r := by
  rcases update_quantity_cases st id? sku? sq d with h | ⟨f, h⟩
  · rw [h, hr]
  · rw [h]
    simp [List.getElem?_map, hr, hm]

/-- A row that the WHERE clause of a delta update matches has exactly its
quantity replaced by `quantity + d`, in place. -/
theorem update_delta_matched_row (st : Store) (id? : Option Nat)
    (sku? : Option String) (d : Int) (j : Nat) (r : Row)
    (hr : st.rows[j]? = some r) (hm : uqMatch id? sku? r = true)
    (hid : ¬ (id? = none ∧ sku? = none)) :
    (update_quantity st id? sku? none (some d)).1.rows[j]? =
      some { r with quantity := r.quantity + d } := by
  have hu : (update_quantity st id? sku? none (some d)).1 =
      ⟨st.rows.map (fun x =>
          if uqMatch id? sku? x then { x with quantity := x.quantity + d } else x),
        st.nextId⟩ := by
    rcases id? with _ | i <;> rcases sku? with _ | k
    · exact absurd ⟨rfl, rfl⟩ hid
    · rfl
    · rfl
    · rfl
  rw [hu]
  simp [List.getElem?_map, hr, hm]

/-! ## Claim theorems -/

/-- C1: for every product row and every signed integer `d`, `update-qty`
with `--delta d` on an identifier matching that row (by id, or by its sku)
replaces its stored quantity `q` with `q + d`, with no clamping at zero:
in particular a row with quantity 3 and delta −1 ends at 2, and a row with
quantity 0 and delta −1 ends at −1. -/
theorem C1_delta_update :
    (∀ (st : Store) (j : Nat) (r : Row) (d : Int), st.rows[j]? = some r →
      (update_quantity st (some r.id) none none (some d)).1.rows[j]? =
          some { r with quantity := r.quantity + d } ∧
      ∀ k, r.sku = some k →
        (update_quantity st none (some k) none (some d)).1.rows[j]? =
          some { r with quantity := r.quantity + d })
  ∧ (update_quantity ⟨[⟨1, some "X", "T", none, none, none, 3⟩], 2⟩
        none (some "X") none (some (-1))).1.rows =
      [⟨1, some "X", "T", none, none, none, 2⟩]
  ∧ (update_quantity ⟨[⟨1, some "X", "T", none, none, none, 0⟩], 2⟩
        none (some "X") none (some (-1))).1.rows =
      [⟨1, some "X", "T", none, none, none, -1⟩] := by
  refine ⟨?_, by decide, by decide⟩
  intro st j r d hr
  constructor
  · exact update_delta_matched_row st (some r.id) none d j r hr
      (by simp [uqMatch, rowMatchesId]) (by simp)
  · intro k hk
    exact update_delta_matched_row st none (some k) d j r hr
      (by simp [uqMatch, rowMatchesSku, hk]) (by simp)

/-- Witness for C1: a store holding one row with sku `SUN-001` and
quantity 0; a delta of −1 drives the quantity to −1 (no clamping). -/
theorem C1_delta_update_witness :
    (update_quantity ⟨[⟨1, some "SUN-001", "Sunset", none, none, none, 0⟩], 2⟩
        none (some "SUN-001") none (some (-1))).1.rows[0]? =
      some ⟨1, some "SUN-001", "Sunset", none, none, none, -1⟩ := by
  have h := (C1_delta_update.1
      ⟨[⟨1, some "SUN-001", "Sunset", none, none, none, 0⟩], 2⟩ 0
      ⟨1, some "SUN-001", "Sunset", none, none, none, 0⟩ (-1) rfl).2
      "SUN-001" rfl
  simpa using h

/-- C2: adding a product whose (non-empty) sku already appears in the
table raises `sqlite3.IntegrityError`, which `add_product` catches and
turns into a printed error message: the store — rows and AUTOINCREMENT
counter alike — is unchanged, no new row is created, and the process goes
on to a normal exit (the caught error is a return value, not a crash). -/
theorem C2_duplicate_sku (st : Store) (S : String) (hS : S ≠ "")
    (hdup : ∃ r ∈ st.rows, r.sku = some S) (t : String) (a : Option String)
    (y : Option Int) (p : Option Rat) (q : Int) :
    add_product st t a y p q (some S) = (st, .integrityError) := by
  have hc : skuConflict st.rows (some S) = true := by
    rcases hdup with ⟨r, hr, hsku⟩
    simp only [skuConflict, List.any_eq_true]
    exact ⟨r, hr, by simp [hsku]⟩
  simp [add_product, hc]

/-- Witness for C2: a one-row table with sku `A`; adding a second product
with sku `A` returns the duplicate error and the identical store. -/
theorem C2_duplicate_sku_witness :
    add_product ⟨[⟨1, some "A", "T", none, none, none, 0⟩], 2⟩
        "U" none none none 5 (some "A") =
      (⟨[⟨1, some "A", "T", none, none, none, 0⟩], 2⟩, .integrityError) :=
  C2_duplicate_sku ⟨[⟨1, some "A", "T", none, none, none, 0⟩], 2⟩ "A"
    (by decide) ⟨⟨1, some "A", "T", none, none, none, 0⟩, by simp, rfl⟩
    "U" none none none 5

/-- C4: `remove`, `update-qty` and `get` called with neither an id nor a
sku print their guidance message and leave the store completely unchanged;
the guard returns before any SQL statement runs, and the process continues
to a normal exit. -/
theorem C4_missing_identifier (st : Store) (sq d : Option Int) :
    remove_product st none none = (st, .provideIdOrSku)
  ∧ update_quantity st none none sq d = (st, .provideIdOrSku)
  ∧ get_product st none none = (st, .provideIdOrSku) :=
  ⟨rfl, rfl, rfl⟩

/-- C10: `add` with no sku can never violate the UNIQUE constraint — NULL
is exempt from UNIQUE in SQLite — so it always inserts a new row with the
fresh AUTOINCREMENT id, however many existing rows also lack a sku. -/
theorem C10_no_sku_always_inserts (st : Store) (t : String)
    (a : Option String) (y : Option Int) (p : Option Rat) (q : Int) :
    add_product st t a y p q none =
      (⟨st.rows ++ [⟨st.nextId, none, t, a, y, p, q⟩], st.nextId + 1⟩,
       .added st.nextId t)
  ∧ (add_product st t a y p q none).2 ≠ .integrityError := by
  refine ⟨rfl, ?_⟩
  simp [add_product, skuConflict]

/-- A row used in several concrete stores below. -/
def skuARow : Row := ⟨1, some "A", "Sunset", none, none, none, 0⟩

/-- A row whose sku is NULL. -/
def nullSkuRow : Row := ⟨1, none, "Untitled", none, none, none, 0⟩

/-- C3 counterexample: supplying the EMPTY string as the sku to `list`
does not filter at all — Python's `if sku:` is false for `""` — so on a
table whose only row has sku `A`, `list` with sku `""` outputs that row
even though its sku differs from `""`.  The claim's universal
quantification over every sku string fails at `S = ""`. -/
theorem C3_counterexample :
    list_products ⟨[skuARow], 2⟩ (some "") = [skuARow]
  ∧ skuARow.sku ≠ some "" := by
  refine ⟨rfl, by decide⟩

/-- C3 amended: for every NON-empty sku string `S` supplied to `list`,
the output is exactly the rows whose sku equals `S` (as a multiset, and
row by row in membership), ordered by ascending id; when no sku is
supplied — or the supplied sku is the empty string, which Python treats as
falsy — `list` outputs every row of the table ordered by ascending id. -/
theorem C3_list_rows (st : Store) (S : String) (hS : S ≠ "") :
    List.Perm (list_products st (some S))
      (st.rows.filter (rowMatchesSku S))
  ∧ (∀ r, r ∈ list_products st (some S) ↔ r ∈ st.rows ∧ r.sku = some S)
  ∧ List.Sorted idLE (list_products st (some S))
  ∧ List.Perm (list_products st none) st.rows
  ∧ List.Sorted idLE (list_products st none)
  ∧ list_products st (some "") = list_products st none := by
  have hne : list_products st (some S) =
      sortById (st.rows.filter (rowMatchesSku S)) := by
    simp [list_products, hS]
  refine ⟨?_, ?_, ?_, ?_, ?_, rfl⟩
  · rw [hne]; exact sortById_perm _
  · intro r
    rw [hne, mem_sortById, List.mem_filter]
    simp [rowMatchesSku]
  · rw [hne]; exact sorted_sortById _
  · exact sortById_perm _
  · exact sorted_sortById _

/-- Witness for C3 (amended): on a one-row store, `list --sku A` returns
exactly the row with sku `A`, and `list` with no sku returns the whole
table. -/
theorem C3_list_rows_witness :
    skuARow ∈ list_products ⟨[skuARow], 2⟩ (some "A") ∧ "A" ≠ "" := by
  refine ⟨?_, by decide⟩
  exact ((C3_list_rows ⟨[skuARow], 2⟩ "A" (by decide)).2.1 skuARow).2
    ⟨by simp, rfl⟩

/-- C5: when both an id and a sku are supplied to `remove`, `update-qty`
or `get`, matching is by id only — the result is literally the same as if
no sku had been passed; when only a sku is supplied, matching is by sku:
`remove` keeps exactly the rows with a different sku, `get` only ever
returns a row carrying the looked-up sku, and `update-qty` leaves every
row with a different sku untouched in place. -/
theorem C5_id_precedence (st : Store) (i : Nat) (k : String)
    (sq d : Option Int) :
    remove_product st (some i) (some k) = remove_product st (some i) none
  ∧ update_quantity st (some i) (some k) sq d =
      update_quantity st (some i) none sq d
  ∧ get_product st (some i) (some k) = get_product st (some i) none
  ∧ (∀ r, r ∈ (remove_product st none (some k)).1.rows ↔
        r ∈ st.rows ∧ ¬ r.sku = some k)
  ∧ (∀ r, (get_product st none (some k)).2 = .found r → r.sku = some k)
  ∧ (∀ (j : Nat) (r : Row), st.rows[j]? = some r → ¬ r.sku = some k →
        (update_quantity st none (some k) sq d).1.rows[j]? = some r) := by
  refine ⟨rfl, rfl, rfl, remove_by_sku_mem st k, get_by_sku_found st k, ?_⟩
  intro j r hr hsku
  exact update_unmatched_row st none (some k) sq d j r hr
    (by simp [uqMatch, rowMatchesSku, hsku])

/-- Witness for C5: with only sku `B` supplied, the row with sku `A`
survives `remove`, and `update-qty --sku B --delta 7` leaves it in place
unchanged. -/
theorem C5_id_precedence_witness :
    (skuARow ∈ (remove_product ⟨[skuARow], 2⟩ none (some "B")).1.rows)
  ∧ (update_quantity ⟨[skuARow], 2⟩ none (some "B") none
      (some 7)).1.rows[0]? = some skuARow := by
  constructor
  · exact ((C5_id_precedence ⟨[skuARow], 2⟩ 1 "B" none (some 7)).2.2.2.1
      skuARow).2 ⟨by simp, by decide⟩
  · exact (C5_id_precedence ⟨[skuARow], 2⟩ 1 "B" none
      (some 7)).2.2.2.2.2 0 skuARow rfl (by decide)

/-- C6 counterexample: `list` with the empty string supplied as the sku
returns every row, including rows whose sku is NULL — Python's `if sku:`
treats `""` as "no sku given", so no sku-filtering happens.  The claim's
quantification over every sku string supplied to `list` fails at
`S = ""` on a table holding a NULL-sku row. -/
theorem C6_counterexample :
    nullSkuRow ∈ list_products ⟨[nullSkuRow], 2⟩ (some "")
  ∧ nullSkuRow.sku = none := by
  refine ⟨?_, rfl⟩
  show nullSkuRow ∈ [nullSkuRow]
  simp

/-- C6 amended: a row whose sku is NULL is never matched, deleted,
updated, or returned by the sku-based lookups of `remove`, `update-qty`
and `get` (for every sku string), nor by `list` for every NON-empty sku
string; `list` with the empty string performs no sku-based lookup at all
and returns every row, NULL-sku rows included. -/
theorem C6_null_sku_never_matched (st : Store) (k : String) (r : Row)
    (hr : r ∈ st.rows) (hnull : r.sku = none) (sq d : Option Int) :
    r ∈ (remove_product st none (some k)).1.rows
  ∧ (∀ j : Nat, st.rows[j]? = some r →
        (update_quantity st none (some k) sq d).1.rows[j]? = some r)
  ∧ (∀ r', (get_product st none (some k)).2 = .found r' → r' ≠ r)
  ∧ (k ≠ "" → r ∉ list_products st (some k)) := by
  have hne : ¬ r.sku = some k := by rw [hnull]; simp
  refine ⟨?_, ?_, ?_, ?_⟩
  · exact (remove_by_sku_mem st k r).2 ⟨hr, hne⟩
  · intro j hj
    exact update_unmatched_row st none (some k) sq d j r hj
      (by simp [uqMatch, rowMatchesSku, hnull])
  · intro r' hfound heq
    exact hne (heq ▸ get_by_sku_found st k r' hfound)
  · intro hk hmem
    have : r.sku = some k := by
      have hl : list_products st (some k) =
          sortById (st.rows.filter (rowMatchesSku k)) := by
        simp [list_products, hk]
      rw [hl, mem_sortById, List.mem_filter] at hmem
      simpa [rowMatchesSku] using hmem.2
    exact hne this

/-- Witness for C6 (amended): the NULL-sku row survives `remove --sku A`,
is untouched by `update-qty --sku A --delta 5`, is never the result of
`get --sku A`, and does not appear in `list --sku A`. -/
theorem C6_null_sku_never_matched_witness :
    nullSkuRow ∈ (remove_product ⟨[nullSkuRow], 2⟩ none (some "A")).1.rows
  ∧ nullSkuRow ∉ list_products ⟨[nullSkuRow], 2⟩ (some "A") := by
  have h := C6_null_sku_never_matched ⟨[nullSkuRow], 2⟩ "A" nullSkuRow
    (by simp) rfl none (some 5)
  exact ⟨h.1, h.2.2.2 (by decide)⟩

/-- C9: `list` with the empty string as its sku argument behaves exactly
as if no sku were supplied (every row, ordered by id), because Python's
`if sku:` is false for `""`; `remove`, `update-qty` and `get` instead
treat `""` as a supplied identifier — their `is None` guards do not fire —
that matches only rows whose sku is literally the empty string. -/
theorem C9_empty_sku (st : Store) (sq d : Option Int) :
    list_products st (some "") = list_products st none
  ∧ (remove_product st none (some "")).2 ≠ .provideIdOrSku
  ∧ (update_quantity st none (some "") sq d).2 ≠ .provideIdOrSku
  ∧ (get_product st none (some "")).2 ≠ .provideIdOrSku
  ∧ (∀ r, r ∈ (remove_product st none (some "")).1.rows ↔
        r ∈ st.rows ∧ ¬ r.sku = some "")
  ∧ (∀ r, (get_product st none (some "")).2 = .found r → r.sku = some "")
  ∧ (∀ (j : Nat) (r : Row), st.rows[j]? = some r → ¬ r.sku = some "" →
        (update_quantity st none (some "") sq d).1.rows[j]? = some r) := by
  refine ⟨rfl, ?_, ?_, ?_, remove_by_sku_mem st "", get_by_sku_found st "", ?_⟩
  · unfold remove_product
    dsimp only
    split <;> simp
  · unfold update_quantity
    rcases sq with _ | q <;> rcases d with _ | d'
    · simp
    all_goals
      dsimp only [applyUpdate]
      split <;> simp
  · unfold get_product
    dsimp only
    split <;> simp
  · intro j r hr hsku
    exact update_unmatched_row st none (some "") sq d j r hr
      (by simp [uqMatch, rowMatchesSku, hsku])

/-- Witness for C9: on a store holding one NULL-sku row, `list --sku ""`
prints the whole table, and the row (whose sku is not `""`) is untouched
in place by `update-qty --sku "" --delta 5`. -/
theorem C9_empty_sku_witness :
    list_products ⟨[nullSkuRow], 2⟩ (some "") =
      list_products ⟨[nullSkuRow], 2⟩ none
  ∧ (update_quantity ⟨[nullSkuRow], 2⟩ none (some "") none
      (some 5)).1.rows[0]? = some nullSkuRow := by
  have h := C9_empty_sku ⟨[nullSkuRow], 2⟩ none (some 5)
  exact ⟨h.1, h.2.2.2.2.2.2 0 nullSkuRow rfl (by decide)⟩

/-- C8: `update_quantity` only ever changes the `quantity` column of the
matched rows.  Whatever the arguments, the AUTOINCREMENT counter, the
number of rows and their order are preserved; the row at each position
keeps its id, sku, title, artist, year and price; and a row the WHERE
clause does not match is preserved verbatim. -/
theorem C8_update_frame (st : Store) (id? : Option Nat)
    (sku? : Option String) (sq d : Option Int) :
    (update_quantity st id? sku? sq d).1.nextId = st.nextId
  ∧ (update_quantity st id? sku? sq d).1.rows.length = st.rows.length
  ∧ (∀ (j : Nat) (r r' : Row), st.rows[j]? = some r →
        (update_quantity st id? sku? sq d).1.rows[j]? = some r' →
        r'.id = r.id ∧ r'.sku = r.sku ∧ r'.title = r.title ∧
        r'.artist = r.artist ∧ r'.year = r.year ∧ r'.price = r.price)
  ∧ (∀ (j : Nat) (r : Row), st.rows[j]? = some r →
        uqMatch id? sku? r = false →
        (update_quantity st id? sku? sq d).1.rows[j]? = some r) := by
  rcases update_quantity_cases st id? sku? sq d with h | ⟨f, h⟩
  · rw [h]
    exact ⟨rfl, rfl,
      fun j r r' hr hr' => by
        rw [hr] at hr'
        cases hr'
        exact ⟨rfl, rfl, rfl, rfl, rfl, rfl⟩,
      fun j r hr _ => hr⟩
  · rw [h]
    refine ⟨rfl, by simp, ?_, ?_⟩
    · intro j r r' hr hr'
      simp only [List.getElem?_map, hr, Option.map_some] at hr'
      cases hr'
      by_cases hm : uqMatch id? sku? r <;> simp [hm]
    · intro j r hr hm
      simp [List.getElem?_map, hr, hm]

/-- Witness for C8: a set-update by id on a two-row store keeps every
column but `quantity` of the matched first row, and leaves the second,
unmatched row untouched in place. -/
theorem C8_update_frame_witness :
    ((update_quantity ⟨[skuARow, ⟨2, none, "B", none, none, none, 4⟩], 3⟩
        (some 1) none (some 9) none).1.rows[0]?.map Row.title = some "Sunset")
  ∧ (update_quantity ⟨[skuARow, ⟨2, none, "B", none, none, none, 4⟩], 3⟩
        (some 1) none (some 9) none).1.rows[1]? =
      some ⟨2, none, "B", none, none, none, 4⟩ := by
  have h := C8_update_frame ⟨[skuARow, ⟨2, none, "B", none, none, none, 4⟩], 3⟩
    (some 1) none (some 9) none
  constructor
  · rcases hr' : (update_quantity
        ⟨[skuARow, ⟨2, none, "B", none, none, none, 4⟩], 3⟩
        (some 1) none (some 9) none).1.rows[0]? with _ | r'
    · exfalso
      rw [List.getElem?_eq_none_iff, h.2.1] at hr'
      simp at hr'
    · have ht := (h.2.2.1 0 skuARow r' rfl hr').2.2.1
      simp [ht]
      rfl
  · exact h.2.2.2 1 ⟨2, none, "B", none, none, none, 4⟩ rfl (by decide)

/-! ## Id assignment and stability -/

/-- Well-formedness kept by the AUTOINCREMENT discipline: every id already
in the table is below the next id to be assigned. -/
def StoreWF (st : Store) : Prop := ∀ r ∈ st.rows, r.id < st.nextId

/-- The `add` invocation used by the fresh-store scenario: a title, no sku,
all optional columns absent, default quantity 0. -/
def addCmd (t : String) : Cmd := .add t none none none 0 none

/-- Run a sequence of `add --title t` invocations on a fresh store. -/
def runAdds (ts : List String) : Store := run freshStore (ts.map addCmd)

theorem step_addCmd (st : Store) (t : String) :
    step st (addCmd t) =
      ⟨st.rows ++ [⟨st.nextId, none, t, none, none, none, 0⟩],
        st.nextId + 1⟩ := rfl

theorem runAdds_aux (ts : List String) (st : Store) :
    ((ts.map addCmd).foldl step st).rows.map Row.id =
        st.rows.map Row.id ++ List.range' st.nextId ts.length
  ∧ ((ts.map addCmd).foldl step st).nextId = st.nextId + ts.length := by
  induction ts generalizing st with
  | nil => simp
  | cons t ts ih =>
      have h := ih ⟨st.rows ++ [⟨st.nextId, none, t, none, none, none, 0⟩],
        st.nextId + 1⟩
      constructor
      · rw [List.map_cons, List.foldl_cons, step_addCmd, h.1]
        simp [List.range'_succ]
      · rw [List.map_cons, List.foldl_cons, step_addCmd, h.2]
        show st.nextId + 1 + ts.length = st.nextId + (t :: ts).length
        simp only [List.length_cons]
        omega

/-- Ids present after one step either were present before or are the
freshly assigned `nextId`; in the latter case the counter was bumped, so
the same id can never be handed out again. -/
theorem step_ids (st : Store) (c : Cmd) (r : Row)
    (h : r ∈ (step st c).rows) :
    r.id ∈ st.rows.map Row.id ∨
      (r.id = st.nextId ∧ (step st c).nextId = st.nextId + 1) := by
  cases c with
  | add t a y p q k =>
      dsimp [step, add_product] at h ⊢
      by_cases hc : skuConflict st.rows k = true
      · rw [if_pos hc] at h
        exact Or.inl (List.mem_map_of_mem Row.id h)
      · rw [if_neg hc] at h ⊢
        rcases List.mem_append.1 h with h | h
        · exact Or.inl (List.mem_map_of_mem Row.id h)
        · simp only [List.mem_singleton] at h
          subst h
          exact Or.inr ⟨rfl, rfl⟩
  | remove i? k? =>
      rcases i? with _ | i <;> rcases k? with _ | k
      · exact Or.inl (List.mem_map_of_mem Row.id h)
      · exact Or.inl (List.mem_map_of_mem Row.id (List.mem_of_mem_filter h))
      · exact Or.inl (List.mem_map_of_mem Row.id (List.mem_of_mem_filter h))
      · exact Or.inl (List.mem_map_of_mem Row.id (List.mem_of_mem_filter h))
  | updateQty i? k? sq d =>
      rcases update_quantity_cases st i? k? sq d with hc | ⟨f, hc⟩
      · dsimp [step] at h
        rw [hc] at h
        exact Or.inl (List.mem_map_of_mem Row.id h)
      · dsimp [step] at h
        rw [hc] at h
        rcases List.mem_map.1 h with ⟨x, hx, hgx⟩
        left
        have : r.id = x.id := by
          rw [← hgx]; split <;> rfl
        rw [this]
        exact List.mem_map_of_mem Row.id hx
  | listCmd k? => exact Or.inl (List.mem_map_of_mem Row.id h)
  | get i? k? =>
      rcases i? with _ | i <;> rcases k? with _ | k <;>
        exact Or.inl (List.mem_map_of_mem Row.id h)
  | initCmd => exact Or.inl (List.mem_map_of_mem Row.id h)
  | helpCmd => exact Or.inl (List.mem_map_of_mem Row.id h)

/-- The AUTOINCREMENT counter never decreases. -/
theorem step_nextId_mono (st : Store) (c : Cmd) :
    st.nextId ≤ (step st c).nextId := by
  cases c with
  | add t a y p q k =>
      dsimp [step, add_product]
      split <;> simp
  | remove i? k? =>
      rcases i? with _ | i <;> rcases k? with _ | k <;> exact le_refl _
  | updateQty i? k? sq d =>
      rcases update_quantity_cases st i? k? sq d with hc | ⟨f, hc⟩ <;>
        dsimp [step] <;> rw [hc]
  | listCmd k? => exact le_refl _
  | get i? k? =>
      rcases i? with _ | i <;> rcases k? with _ | k <;> exact le_refl _
  | initCmd => exact le_refl _
  | helpCmd => exact le_refl _

theorem step_wf (st : Store) (c : Cmd) (hwf : StoreWF st) :
    StoreWF (step st c) := by
  intro r hr
  rcases step_ids st c r hr with h | ⟨h1, h2⟩
  · rcases List.mem_map.1 h with ⟨x, hx, hid⟩
    calc r.id = x.id := hid.symm
      _ < st.nextId := hwf x hx
      _ ≤ (step st c).nextId := step_nextId_mono st c
  · rw [h1, h2]; exact Nat.lt_succ_self _

/-- A dead id — once below the counter and no longer present — can never
come back, whatever commands follow. -/
theorem run_dead_id (cs : List Cmd) (st : Store) (i : Nat)
    (hwf : StoreWF st) (hlt : i < st.nextId)
    (hdead : i ∉ st.rows.map Row.id) :
    i ∉ (run st cs).rows.map Row.id := by
  induction cs generalizing st with
  | nil => exact hdead
  | cons c cs ih =>
      show i ∉ (run (step st c) cs).rows.map Row.id
      refine ih (step st c) (step_wf st c hwf)
        (lt_of_lt_of_le hlt (step_nextId_mono st c)) ?_
      intro hmem
      rcases List.mem_map.1 hmem with ⟨r, hr, hid⟩
      rcases step_ids st c r hr with h | ⟨h1, _⟩
      · exact hdead (hid ▸ h)
      · rw [h1] at hid
        omega

theorem add_success_id (st : Store) (t : String) (a : Option String)
    (y : Option Int) (p : Option Rat) (q : Int) (k : Option String)
    (n : Nat) (t' : String)
    (h : (add_product st t a y p q k).2 = .added n t') :
    n = st.nextId ∧ (add_product st t a y p q k).1.nextId = st.nextId + 1 := by
  unfold add_product at h ⊢
  by_cases hc : skuConflict st.rows k = true
  · rw [if_pos hc] at h
    exact absurd h (by simp)
  · rw [if_neg hc] at h ⊢
    have h' : AddResult.added st.nextId t = .added n t' := h
    cases h'
    exact ⟨rfl, rfl⟩

/-- C7: starting from a fresh (empty) store, `add` assigns ids 1, 2, 3, …
in order (every successful `add` returns the current AUTOINCREMENT value
and bumps it by one), and an id once assigned is never reused or changed:
the counter never decreases, each step only keeps existing ids or mints
the fresh one, and an id that has been assigned and later removed never
reappears under any subsequent sequence of operations. -/
theorem C7_id_assignment :
    (∀ ts : List String,
        (runAdds ts).rows.map Row.id = List.range' 1 ts.length ∧
        (runAdds ts).nextId = ts.length + 1)
  ∧ (∀ (st : Store) (t : String) (a : Option String) (y : Option Int)
        (p : Option Rat) (q : Int) (k : Option String) (n : Nat)
        (t' : String), (add_product st t a y p q k).2 = .added n t' →
        n = st.nextId ∧ (add_product st t a y p q k).1.nextId = st.nextId + 1)
  ∧ (∀ (st : Store) (c : Cmd), StoreWF st → StoreWF (step st c))
  ∧ (∀ (st : Store) (c : Cmd), st.nextId ≤ (step st c).nextId)
  ∧ (∀ (st : Store) (c : Cmd) (r : Row), r ∈ (step st c).rows →
        r.id ∈ st.rows.map Row.id ∨ r.id = st.nextId)
  ∧ (∀ (cs : List Cmd) (st : Store) (i : Nat), StoreWF st →
        i < st.nextId → i ∉ st.rows.map Row.id →
        i ∉ (run st cs).rows.map Row.id) := by
  refine ⟨?_, add_success_id, step_wf, step_nextId_mono,
    fun st c r h => (step_ids st c r h).imp id And.left, run_dead_id⟩
  intro ts
  have h := runAdds_aux ts freshStore
  constructor
  · simpa [runAdds, run, freshStore] using h.1
  · rw [runAdds, run, h.2]
    show 1 + ts.length = ts.length + 1
    omega

/-- Witness for C7: id 1 was assigned and removed (the store is empty but
the counter stands at 2), and a subsequent `add` does not bring id 1
back — the new row gets id 2. -/
theorem C7_id_assignment_witness :
    (1 : Nat) ∉ (run ⟨[], 2⟩ [addCmd "x"]).rows.map Row.id := by
  refine C7_id_assignment.2.2.2.2.2 [addCmd "x"] ⟨[], 2⟩ 1 ?_ (by decide)
    (by simp)
  intro r hr
  simp at hr

end ArtworkInventory
